import Mathlib

/-!
Verification of the utility-consumption dashboard pipeline (src/app.py).

The pipeline is embedded shallowly: pandas dataframes become lists of
structure values, dataframe columns become structure fields, NA-able
columns become Option fields, and each numbered transformation step of
src/app.py is one Lean definition.  Numeric columns are modelled with
exact rationals.
-/

namespace EnergyDashboard

set_option maxRecDepth 100000

/-- A calendar date (year, month, day), modelling a pandas Timestamp at
day precision. -/
structure Date where
  year : Int
  month : Int
  day : Int
deriving DecidableEq

/-- Gregorian leap-year test. -/
def isLeap (y : Int) : Bool :=
  y % 4 == 0 && (y % 100 != 0 || y % 400 == 0)

/-- Number of days in a month of the Gregorian calendar. -/
def daysInMonth (y m : Int) : Int :=
  if m == 2 then (if isLeap y then 29 else 28)
  else if m == 4 || m == 6 || m == 9 || m == 11 then 30
  else 31

/-- Day count of a date from the civil epoch 1970-01-01 (the standard
days-from-civil computation); subtracting two of these values models
pandas Timestamp subtraction in days. -/
def daysFromCivil (d : Date) : Int :=
  let y := d.year - (if d.month ≤ 2 then 1 else 0)
  let era := (if 0 ≤ y then y else y - 399) / 400
  let yoe := y - era * 400
  let mp := d.month + (if 2 < d.month then (-3) else 9)
  let doy := (153 * mp + 2) / 5 + d.day - 1
  let doe := yoe * 365 + yoe / 4 - yoe / 100 + doy
  era * 146097 + doe - 719468

/-- Successor calendar day. -/
def nextDay (d : Date) : Date :=
  if d.day < daysInMonth d.year d.month then ⟨d.year, d.month, d.day + 1⟩
  else if d.month < 12 then ⟨d.year, d.month + 1, 1⟩
  else ⟨d.year + 1, 1, 1⟩

/-- pd.date_range(start, end): the calendar days from s to e inclusive,
empty when e is before s (src/app.py line 99). -/
def dateRange (s e : Date) : List Date :=
  if daysFromCivil e - daysFromCivil s < 0 then []
  else (List.range ((daysFromCivil e - daysFromCivil s).toNat + 1)).map
    (fun i => nextDay^[i] s)

/-- One row of the billing dataset (columns listed in the spec, section 6).
BuildingSizeSQFT is optional in the data and hence nullable here. -/
structure BillingRow where
  complexName : String
  commodity : String
  buildingName : String
  meterName : String
  year : Int
  billStartDate : Date
  billEndDate : Date
  totalConsumption : ℚ
  totalCost : ℚ
  units : String
  buildingSizeSQFT : Option ℚ
  primaryUse : String
deriving DecidableEq

/-- One row of the temperature dataset: a year-month key and the average
temperature for that month. -/
structure TempRow where
  yearMonth : Int × Int
  tavg : ℚ
deriving DecidableEq

/-- BillDays column: (BillEndDate - BillStartDate).days + 1
(src/app.py line 107). -/
def billDaysOf (r : BillingRow) : Int :=
  daysFromCivil r.billEndDate - daysFromCivil r.billStartDate + 1

/-- BillDays after replace(0, pd.NA) (src/app.py line 110): only an
exactly-zero day count becomes NA; negative counts pass through. -/
def billDaysNA (r : BillingRow) : Option Int :=
  if billDaysOf r = 0 then none else some (billDaysOf r)

/-- DailyConsumption column: TotalConsumption / BillDays with NA
propagation, then fillna(0) (src/app.py lines 113 and 117). -/
def dailyConsumptionOf (r : BillingRow) : ℚ :=
  match billDaysNA r with
  | none => 0
  | some b => r.totalConsumption / (b : ℚ)

/-- DailyCost column: TotalCost / BillDays with NA propagation, then
fillna(0) (src/app.py lines 114 and 118). -/
def dailyCostOf (r : BillingRow) : ℚ :=
  match billDaysNA r with
  | none => 0
  | some b => r.totalCost / (b : ℚ)

/-- The DateRange entries of one billing row after explode
(src/app.py lines 98-104): pandas explode keeps a single NaN entry when
the date list of a row is empty. -/
def explodedDates (r : BillingRow) : List (Option Date) :=
  if (dateRange r.billStartDate r.billEndDate).isEmpty then [none]
  else (dateRange r.billStartDate r.billEndDate).map some

/-- Year-month column: the calendar day truncated to its month, NaT for
the NaN explode entry (src/app.py line 121). -/
def yearMonthOf : Option Date → Option (Int × Int)
  | none => none
  | some d => some (d.year, d.month)

/-- A row of df_exploded after the explode, BillDays, daily-value and
month-key steps (src/app.py lines 98-121).  All original billing columns
are preserved in the nested row. -/
structure ExplodedRow where
  row : BillingRow
  dateRangeDay : Option Date
  billDays : Option Int
  dailyConsumption : ℚ
  dailyCost : ℚ
  yearMonth : Option (Int × Int)
deriving DecidableEq

/-- All df_exploded rows arising from one billing row
(src/app.py lines 98-121). -/
def explodeRow (r : BillingRow) : List ExplodedRow :=
  (explodedDates r).map (fun od =>
    { row := r
      dateRangeDay := od
      billDays := billDaysNA r
      dailyConsumption := dailyConsumptionOf r
      dailyCost := dailyCostOf r
      yearMonth := yearMonthOf od })

/-- df_exploded for the whole filtered table. -/
def explodeTable (tbl : List BillingRow) : List ExplodedRow :=
  tbl.flatMap explodeRow

/-- df_exploded after the left merge with the temperature table
(src/app.py line 122): a nullable TAVG column is appended. -/
structure MergedRow where
  ex : ExplodedRow
  tavg : Option ℚ
deriving DecidableEq

/-- Left merge of one exploded row with the temperature table on the
Year-month key (src/app.py line 122): pandas emits one output row per
matching temperature record, and keeps a row with no match once, with
null TAVG. -/
def mergeRowTemp (temp : List TempRow) (e : ExplodedRow) : List MergedRow :=
  if (temp.filter (fun t => decide (e.yearMonth = some t.yearMonth))).isEmpty
  then [{ ex := e, tavg := none }]
  else (temp.filter (fun t => decide (e.yearMonth = some t.yearMonth))).map
    (fun t => { ex := e, tavg := some t.tavg })

/-- The merged table: left join of all exploded rows with the
temperature table (src/app.py line 122). -/
def mergeTemp (rows : List ExplodedRow) (temp : List TempRow) : List MergedRow :=
  rows.flatMap (mergeRowTemp temp)

/-- The three options of the normalization radio button
(src/app.py lines 125-128). -/
inductive NormMethod where
  | noNorm
  | weatherNormalized
  | energyUseIntensity
deriving DecidableEq

/-- NormalizedConsumption under Weather Normalized Energy Use: TAVG with
0 replaced by NA, TotalConsumption divided by it, then fillna(0)
(src/app.py lines 132-134). -/
def weatherNormalizedValue (m : MergedRow) : ℚ :=
  match m.tavg with
  | none => 0
  | some t => if t = 0 then 0 else m.ex.row.totalConsumption / t

/-- NormalizedConsumption under Energy Use Intensity: BuildingSizeSQFT
with 0 replaced by NA, TotalConsumption divided by it, then fillna(0)
(src/app.py lines 138-140). -/
def euiValue (m : MergedRow) : ℚ :=
  match m.ex.row.buildingSizeSQFT with
  | none => 0
  | some s => if s = 0 then 0 else m.ex.row.totalConsumption / s

/-- The per-row value of the y_axis_column selected by the normalization
dispatch (src/app.py lines 131-145).  hasTAVG and hasSQFT model the
column-presence tests on df_exploded; when the required column of the
chosen mode is absent the dispatch falls through to the else branch,
whose value column is TotalConsumption. -/
def yValue (mode : NormMethod) (hasTAVG hasSQFT : Bool) (m : MergedRow) : ℚ :=
  if mode = NormMethod.weatherNormalized ∧ hasTAVG then weatherNormalizedValue m
  else if mode = NormMethod.energyUseIntensity ∧ hasSQFT then euiValue m
  else m.ex.row.totalConsumption

/-- The name of the column selected as y_axis_column by the
normalization dispatch (src/app.py lines 131-145). -/
def yAxisColumn (mode : NormMethod) (hasTAVG hasSQFT : Bool) : String :=
  if mode = NormMethod.weatherNormalized ∧ hasTAVG then "NormalizedConsumption"
  else if mode = NormMethod.energyUseIntensity ∧ hasSQFT then "NormalizedConsumption"
  else "TotalConsumption"

/-- The warning of the scatterplot section guard (src/app.py lines 295
and 324): shown, in runs that reach the charts, when the
BuildingSizeSQFT or TotalCost column is absent, independent of the
chosen mode.  This models only that one message; the missing-column
errors the loader surfaces before any computation (src/app.py lines 31
and 38) are modelled by loadBilling and loadTemperature below. -/
def scatterplotWarnings (hasSQFT hasTotalCost : Bool) : List String :=
  if hasSQFT && hasTotalCost then []
  else ["The dataset does not contain a BuildingSizeSQFT column."]

/-- The loader guard of src/app.py lines 27-32: if BillStartDate or
BillEndDate is absent from the commodity dataset, st.error with the
missing column name and st.stop, before any computation. -/
def loadBilling (hasBillStartDate hasBillEndDate : Bool)
    (rows : List BillingRow) : Except String (List BillingRow) :=
  if !hasBillStartDate then
    Except.error "Column BillStartDate not found in the commodity dataset."
  else if !hasBillEndDate then
    Except.error "Column BillEndDate not found in the commodity dataset."
  else Except.ok rows

/-- The loader guard of src/app.py lines 35-39: if Year-month or TAVG is
absent from the temperature dataset, st.error and st.stop, before any
computation. -/
def loadTemperature (hasYearMonth hasTAVGColumn : Bool)
    (rows : List TempRow) : Except String (List TempRow) :=
  if hasYearMonth && hasTAVGColumn then Except.ok rows
  else Except.error "The temperature dataset must contain Year-month and TAVG columns."

/-- list(range(lo, hi + 1)): the years selected by the slider
(src/app.py line 77). -/
def intRange (lo hi : Int) : List Int :=
  (List.range (hi + 1 - lo).toNat).map (fun i => lo + i)

/-- The cascading sidebar filters (src/app.py lines 45-80): campus
equality, then commodity equality, then an optional isin filter on
building names (empty selection means no restriction), then the year
slider filter.  The meter selection of line 65 is read by the sidebar
but never applied to the table, so selectedMeters is unused here, as in
the source. -/
def filteredData (tbl : List BillingRow) (selectedCampus selectedCommodity : String)
    (selectedBuildings selectedMeters : List String) (yearLo yearHi : Int) :
    List BillingRow :=
  let filteredCampusData := tbl.filter (fun r => decide (r.complexName = selectedCampus))
  let commodityFilteredData :=
    filteredCampusData.filter (fun r => decide (r.commodity = selectedCommodity))
  let buildingFilteredData :=
    if selectedBuildings.isEmpty then commodityFilteredData
    else commodityFilteredData.filter (fun r => decide (r.buildingName ∈ selectedBuildings))
  let availableYears := buildingFilteredData.map (fun r => r.year)
  if availableYears.isEmpty then buildingFilteredData
  else
    let selectedYears := intRange yearLo yearHi
    buildingFilteredData.filter (fun r => decide (r.year ∈ selectedYears))

/-- Insert into a list sorted by the given comparison. -/
def insertSortedBy (le : α → α → Bool) (a : α) : List α → List α
  | [] => [a]
  | b :: bs => if le a b then a :: b :: bs else b :: insertSortedBy le a bs

/-- Insertion sort by the given comparison, modelling the ascending key
order pandas groupby produces. -/
def sortListBy (le : α → α → Bool) : List α → List α
  | [] => []
  | a :: as => insertSortedBy le a (sortListBy le as)

/-- groupby(key)[val].sum(): pandas drops rows with a null key, sorts
the distinct keys ascending, and sums the value column per key. -/
def groupSum [DecidableEq κ] (keyLe : κ → κ → Bool) (rows : List α)
    (key : α → Option κ) (val : α → ℚ) : List (κ × ℚ) :=
  let keys := (rows.filterMap key).eraseDups
  (sortListBy keyLe keys).map (fun k =>
    (k, ((rows.filter (fun a => decide (key a = some k))).map val).sum))

/-- Ascending order on year-month keys. -/
def ymLe (a b : Int × Int) : Bool :=
  decide (a.1 < b.1 ∨ (a.1 = b.1 ∧ a.2 ≤ b.2))

/-- First aggregation view (src/app.py line 150):
df_exploded.groupby(Year-month)[y_axis_column].sum(), ascending month
order. -/
def consumptionByMonth (rows : List MergedRow) (y : MergedRow → ℚ) :
    List ((Int × Int) × ℚ) :=
  groupSum ymLe rows (fun m => m.ex.yearMonth) y

/-- Ascending order on (year, month, building) keys. -/
def ymbLe (a b : Int × Int × String) : Bool :=
  decide (a.1 < b.1 ∨ (a.1 = b.1 ∧ (a.2.1 < b.2.1 ∨ (a.2.1 = b.2.1 ∧ a.2.2 ≤ b.2.2))))

/-- Second aggregation view (src/app.py line 185): group by Year, Month
(of the exploded calendar day) and BuildingName, summing the value
column; rows whose exploded day is the NaN explode entry have a null
month and are dropped by groupby. -/
def monthlyConsumptionBuilding (rows : List MergedRow) (y : MergedRow → ℚ) :
    List ((Int × Int × String) × ℚ) :=
  groupSum ymbLe rows
    (fun m =>
      match m.ex.dateRangeDay with
      | none => none
      | some d => some (m.ex.row.year, d.month, m.ex.row.buildingName))
    y

/-- Ascending order on (year, primary use) keys. -/
def ypLe (a b : Int × String) : Bool :=
  decide (a.1 < b.1 ∨ (a.1 = b.1 ∧ a.2 ≤ b.2))

/-- Third aggregation view (src/app.py line 269): group by Year and
PrimaryUse, summing the value column. -/
def primaryUseConsumption (rows : List MergedRow) (y : MergedRow → ℚ) :
    List ((Int × String) × ℚ) :=
  groupSum ypLe rows (fun m => some (m.ex.row.year, m.ex.row.primaryUse)) y

/-- Fourth aggregation view (src/app.py lines 298-302): group by
BuildingName, sum the value column and TotalCost, take the first
non-null BuildingSizeSQFT. -/
def consumptionBuildingSize (rows : List MergedRow) (y : MergedRow → ℚ) :
    List (String × ℚ × ℚ × Option ℚ) :=
  let keys := (rows.map (fun m => m.ex.row.buildingName)).eraseDups
  (sortListBy (fun a b => decide (a ≤ b)) keys).map (fun bn =>
    let grp := rows.filter (fun m => decide (m.ex.row.buildingName = bn))
    (bn, (grp.map y).sum, (grp.map (fun m => m.ex.row.totalCost)).sum,
      (grp.filterMap (fun m => m.ex.row.buildingSizeSQFT)).head?))

/-- The four chart input tables of one render cycle. -/
structure ChartTables where
  monthly : List ((Int × Int) × ℚ)
  buildingMonth : List ((Int × Int × String) × ℚ)
  primaryUseYear : List ((Int × String) × ℚ)
  buildingSize : List (String × ℚ × ℚ × Option ℚ)
deriving DecidableEq

/-- One render cycle from filtering onwards: the empty-result guard of
src/app.py lines 83-85 issues st.warning and st.stop before any of the
expansion, merge, normalization or aggregation steps run; otherwise all
four aggregation views are computed. -/
def renderCycle (tbl : List BillingRow) (temp : List TempRow)
    (selectedCampus selectedCommodity : String)
    (selectedBuildings selectedMeters : List String) (yearLo yearHi : Int)
    (mode : NormMethod) (hasTAVG hasSQFT : Bool) : Except String ChartTables :=
  let fd := filteredData tbl selectedCampus selectedCommodity selectedBuildings
    selectedMeters yearLo yearHi
  if fd.isEmpty then
    Except.error "No data available for the selected filters. Please adjust your filter options."
  else
    let merged := mergeTemp (explodeTable fd) temp
    let y := yValue mode hasTAVG hasSQFT
    Except.ok
      { monthly := consumptionByMonth merged y
        buildingMonth := monthlyConsumptionBuilding merged y
        primaryUseYear := primaryUseConsumption merged y
        buildingSize := consumptionBuildingSize merged y }

/-- The whole script from loading to the charts: the loaders halt with
a missing-column error when a required column is absent (src/app.py
lines 27-39); in every run that gets past them, the merge of line 122
unconditionally appends the TAVG column to df_exploded, so the dispatch
of line 131 always sees the TAVG column present - renderCycle is
therefore invoked with hasTAVG = true. -/
def runApp (hasBillStartDate hasBillEndDate hasYearMonth hasTAVGColumn hasSQFT : Bool)
    (billing : List BillingRow) (temp : List TempRow)
    (selectedCampus selectedCommodity : String)
    (selectedBuildings selectedMeters : List String) (yearLo yearHi : Int)
    (mode : NormMethod) : Except String ChartTables :=
  match loadBilling hasBillStartDate hasBillEndDate billing with
  | Except.error e => Except.error e
  | Except.ok billingOk =>
    match loadTemperature hasYearMonth hasTAVGColumn temp with
    | Except.error e => Except.error e
    | Except.ok tempOk =>
      renderCycle billingOk tempOk selectedCampus selectedCommodity
        selectedBuildings selectedMeters yearLo yearHi mode true hasSQFT

/-- The individual filter constraints of the sidebar cascade, as applied
to the billing table: campus equality (src/app.py line 45), commodity
equality (line 52), building membership with the inclusive empty default
(lines 59-62), year membership (line 78).  Modelled from the spec: the
meter-membership constraint of applyFilters is absent from src/app.py
(the meter selection of line 65 is never applied), so its case follows
the building pattern the spec prescribes for it. -/
inductive Constraint where
  | campusEq : String → Constraint
  | commodityEq : String → Constraint
  | buildingIn : List String → Constraint
  | meterIn : List String → Constraint
  | yearIn : List Int → Constraint
deriving DecidableEq

/-- Apply one filter constraint to a billing table, mirroring the
dataframe filters of src/app.py lines 45-78: equality filters for campus
and commodity, isin filters with the empty-selection-means-no-restriction
default for the multi-select dimensions. -/
def applyConstraint (c : Constraint) (tbl : List BillingRow) : List BillingRow :=
  match c with
  | Constraint.campusEq campus => tbl.filter (fun r => decide (r.complexName = campus))
  | Constraint.commodityEq com => tbl.filter (fun r => decide (r.commodity = com))
  | Constraint.buildingIn sel =>
      if sel.isEmpty then tbl else tbl.filter (fun r => decide (r.buildingName ∈ sel))
  | Constraint.meterIn sel =>
      if sel.isEmpty then tbl else tbl.filter (fun r => decide (r.meterName ∈ sel))
  | Constraint.yearIn sel =>
      if sel.isEmpty then tbl else tbl.filter (fun r => decide (r.year ∈ sel))


/-! Concrete rows used to evaluate the pipeline at specific inputs. -/

/-- The billing row of the spec scenario: start 2023-01-01, end
2023-01-31, TotalConsumption 310. -/
def scenarioRow : BillingRow :=
  { complexName := "Campus"
    commodity := "Elec"
    buildingName := "B1"
    meterName := "M1"
    year := 2023
    billStartDate := ⟨2023, 1, 1⟩
    billEndDate := ⟨2023, 1, 31⟩
    totalConsumption := 310
    totalCost := 0
    units := "kWh"
    buildingSizeSQFT := none
    primaryUse := "Office" }

/-- A billing row whose end date lies strictly before its start date:
BillDays = -8. -/
def reversedRow : BillingRow :=
  { scenarioRow with
    billStartDate := ⟨2023, 1, 10⟩
    billEndDate := ⟨2023, 1, 1⟩
    totalConsumption := 80
    totalCost := 40 }

/-- Two billing rows that differ only in MeterName. -/
def meterRowA : BillingRow := { scenarioRow with meterName := "MA" }

/-- See meterRowA. -/
def meterRowB : BillingRow := { scenarioRow with meterName := "MB" }

/-- A concrete exploded row with month key 2023-01. -/
def e0 : ExplodedRow :=
  { row := scenarioRow
    dateRangeDay := some ⟨2023, 1, 1⟩
    billDays := some 31
    dailyConsumption := 10
    dailyCost := 0
    yearMonth := some (2023, 1) }

/-- A concrete exploded row with month key 2023-02. -/
def eFeb : ExplodedRow :=
  { e0 with dateRangeDay := some ⟨2023, 2, 1⟩, yearMonth := some (2023, 2) }

/-- A temperature table with two records for the same month 2023-01 and
none for 2023-02. -/
def dupTemp : List TempRow := [⟨(2023, 1), 5⟩, ⟨(2023, 1), 7⟩]

/-- The scenario billing row with TotalConsumption 0. -/
def zeroConsumptionRow : BillingRow := { scenarioRow with totalConsumption := 0 }

/-- An exploded row of the zero-consumption billing row. -/
def eZero : ExplodedRow := { e0 with row := zeroConsumptionRow }

/-- The exploded row of the scenario billing row for day i+1 of
January 2023. -/
def scenarioDay (i : Nat) : ExplodedRow :=
  { row := scenarioRow
    dateRangeDay := some ⟨2023, 1, (i : Int) + 1⟩
    billDays := some 31
    dailyConsumption := 10
    dailyCost := 0
    yearMonth := some (2023, 1) }

/-- The 31 exploded rows of the scenario billing row. -/
def scenarioExploded : List ExplodedRow := (List.range 31).map scenarioDay

/-- The scenario rows after the merge with an empty temperature table. -/
def scenarioMerged : List MergedRow :=
  (List.range 31).map (fun i => { ex := scenarioDay i, tavg := none })

/-! Helper lemmas. -/

/-- Sum of a constant-valued map over a list. -/
theorem list_sum_map_const {α : Type} (l : List α) (c : ℚ) :
    (l.map (fun _ => c)).sum = (l.length : ℚ) * c := by
  induction l with
  | nil => simp
  | cons a as ih =>
    simp [ih]
    ring

/-- Filtering twice by the same predicate equals filtering once. -/
theorem filter_self_idem {α : Type} (p : α → Bool) (l : List α) :
    (l.filter p).filter p = l.filter p := by
  induction l with
  | nil => rfl
  | cons a as ih =>
    cases hpa : p a with
    | false => simp [List.filter_cons, hpa, ih]
    | true => simp [List.filter_cons, hpa, ih]

/-- The number of merged rows one exploded row contributes: one when no
temperature record matches its month key, otherwise one per match. -/
theorem mergeRowTemp_length (temp : List TempRow) (e : ExplodedRow) :
    (mergeRowTemp temp e).length
      = max 1 (temp.filter (fun t => decide (e.yearMonth = some t.yearMonth))).length := by
  unfold mergeRowTemp
  cases hh : temp.filter (fun t => decide (e.yearMonth = some t.yearMonth)) with
  | nil => simp [hh]
  | cons t ts =>
    simp [hh]

/-- A group-by-sum whose input has exactly one distinct key produces a
single group. -/
theorem groupSum_single {α κ : Type} [DecidableEq κ] (keyLe : κ → κ → Bool)
    (rows : List α) (key : α → Option κ) (val : α → ℚ) (k : κ) (s : ℚ)
    (hkeys : (rows.filterMap key).eraseDups = [k])
    (hsum : ((rows.filter (fun a => decide (key a = some k))).map val).sum = s) :
    groupSum keyLe rows key val = [(k, s)] := by
  unfold groupSum
  rw [hkeys]
  simp [sortListBy, insertSortedBy, hsum]

/-! Claim theorems. -/

/-- Claim C1 (code bug shown): for the scenario billing row the
expansion does produce 31 rows with DailyConsumption 10, but the monthly
aggregation under mode None sums the y_axis_column TotalConsumption,
which src/app.py line 144 sets to the per-billing-row total replicated
on every exploded day row, so Jan-2023 comes out as 31 * 310 = 9610, not
the claimed 310; summing the DailyConsumption column the code computes
and never uses would give the claimed 310. -/
theorem scenario_monthly_total_under_none_mode :
    (explodeRow scenarioRow).length = 31 ∧
    (∀ e ∈ explodeRow scenarioRow, e.dailyConsumption = 10) ∧
    consumptionByMonth (mergeTemp (explodeRow scenarioRow) [])
      (yValue NormMethod.noNorm true false) = [((2023, 1), 9610)] ∧
    ¬ consumptionByMonth (mergeTemp (explodeRow scenarioRow) [])
      (yValue NormMethod.noNorm true false) = [((2023, 1), 310)] ∧
    consumptionByMonth (mergeTemp (explodeRow scenarioRow) [])
      (fun m => m.ex.dailyConsumption) = [((2023, 1), 310)] := by
  have hexp : explodeRow scenarioRow = scenarioExploded := by
    with_unfolding_all decide
  have hmerge : mergeTemp scenarioExploded [] = scenarioMerged := by
    with_unfolding_all decide
  have hfil : ∀ p : MergedRow → Bool, (∀ a ∈ scenarioMerged, p a) →
      scenarioMerged.filter p = scenarioMerged :=
    fun p hp => List.filter_eq_self.mpr hp
  have hmapn : scenarioMerged.map (yValue NormMethod.noNorm true false)
      = List.replicate 31 ((310 : ℚ)) := by
    with_unfolding_all decide
  have hmapd : scenarioMerged.map (fun m => m.ex.dailyConsumption)
      = List.replicate 31 ((10 : ℚ)) := by
    with_unfolding_all decide
  have hagg : consumptionByMonth scenarioMerged (yValue NormMethod.noNorm true false)
      = [((2023, 1), 9610)] := by
    apply groupSum_single
    · with_unfolding_all decide
    · rw [hfil _ (by with_unfolding_all decide), hmapn, List.sum_replicate]
      norm_num
  have haggd : consumptionByMonth scenarioMerged (fun m => m.ex.dailyConsumption)
      = [((2023, 1), 310)] := by
    apply groupSum_single
    · with_unfolding_all decide
    · rw [hfil _ (by with_unfolding_all decide), hmapd, List.sum_replicate]
      norm_num
  refine ⟨?_, ?_, ?_, ?_, ?_⟩
  · rw [hexp]
    with_unfolding_all decide
  · rw [hexp]
    with_unfolding_all decide
  · rw [hexp, hmerge, hagg]
  · rw [hexp, hmerge, hagg]
    with_unfolding_all decide
  · rw [hexp, hmerge, haggd]

/-- Claim C2 (code bug shown): the meter selection of src/app.py line 65
is never applied to the table, so with meters selected as [MA] the
filtered table still contains meterRowB whose MeterName MB is not among
the selected meters. -/
theorem filteredData_ignores_meter_selection :
    filteredData [meterRowA, meterRowB] "Campus" "Elec" [] ["MA"] 2023 2023
      = [meterRowA, meterRowB] ∧
    meterRowB.meterName ∉ (["MA"] : List String) := by
  with_unfolding_all decide

/-- Claim C3: for every billing row with start date at or before its end
date, the expanded DailyConsumption values of that row sum back exactly
to the original TotalConsumption. -/
theorem explodeRow_sum_dailyConsumption (r : BillingRow)
    (h : daysFromCivil r.billStartDate ≤ daysFromCivil r.billEndDate) :
    ((explodeRow r).map (fun e => e.dailyConsumption)).sum = r.totalConsumption := by
  have hn0 : 0 ≤ daysFromCivil r.billEndDate - daysFromCivil r.billStartDate :=
    sub_nonneg.mpr h
  have hbdpos : 0 < billDaysOf r := by unfold billDaysOf; omega
  have hdaily : dailyConsumptionOf r = r.totalConsumption / ((billDaysOf r : ℤ) : ℚ) := by
    unfold dailyConsumptionOf billDaysNA
    rw [if_neg (ne_of_gt hbdpos)]
  have hlen : (dateRange r.billStartDate r.billEndDate).length = (billDaysOf r).toNat := by
    unfold dateRange
    rw [if_neg (not_lt.mpr hn0)]
    rw [List.length_map, List.length_range]
    unfold billDaysOf
    omega
  have hconst : (explodeRow r).map (fun e => e.dailyConsumption)
      = (explodedDates r).map (fun _ => dailyConsumptionOf r) := by
    unfold explodeRow
    rw [List.map_map]
    rfl
  have hlenex : (explodedDates r).length = (billDaysOf r).toNat := by
    unfold explodedDates
    cases hdr : dateRange r.billStartDate r.billEndDate with
    | nil =>
      rw [hdr] at hlen
      simp at hlen
      omega
    | cons d ds =>
      rw [hdr] at hlen
      simp at hlen
      simp
      omega
  rw [hconst, list_sum_map_const, hlenex]
  have hcast : (((billDaysOf r).toNat : ℕ) : ℚ) = ((billDaysOf r : ℤ) : ℚ) := by
    exact_mod_cast Int.toNat_of_nonneg (le_of_lt hbdpos)
  rw [hcast, hdaily, mul_comm]
  exact div_mul_cancel₀ r.totalConsumption (Int.cast_ne_zero.mpr (ne_of_gt hbdpos))

/-- Witness for the C3 theorem at the concrete scenario billing row. -/
theorem explodeRow_sum_dailyConsumption_witness :
    daysFromCivil scenarioRow.billStartDate ≤ daysFromCivil scenarioRow.billEndDate ∧
    ((explodeRow scenarioRow).map (fun e => e.dailyConsumption)).sum
      = scenarioRow.totalConsumption :=
  ⟨by decide, explodeRow_sum_dailyConsumption scenarioRow (by decide)⟩

/-- Claim C4 counterexample: for the reversed billing row (end nine days
before start) pandas explode keeps one output row, and BillDays = -8 is
not replaced by NA (only exact 0 is), so DailyConsumption = 80 / -8 =
-10 and DailyCost = 40 / -8 = -5: the output rows do not all carry 0. -/
theorem expansion_negative_period_counterexample :
    daysFromCivil reversedRow.billEndDate < daysFromCivil reversedRow.billStartDate ∧
    (explodeRow reversedRow).map (fun e => e.dailyConsumption) = [(-10 : ℚ)] ∧
    (explodeRow reversedRow).map (fun e => e.dailyCost) = [(-5 : ℚ)] ∧
    ¬ (∀ e ∈ explodeRow reversedRow, e.dailyConsumption = 0 ∧ e.dailyCost = 0) := by
  with_unfolding_all decide

/-- Claim C4 as amended: for end before start, expansion is total (never
faults) and keeps exactly one output row with a null calendar day; its
daily values are 0 exactly when the period length end - start + 1 is 0,
and otherwise equal the totals divided by the negative period length. -/
theorem explodeRow_reversed_period (r : BillingRow)
    (h : daysFromCivil r.billEndDate < daysFromCivil r.billStartDate) :
    (explodeRow r).map (fun e => e.dateRangeDay) = [none] ∧
    (billDaysOf r = 0 →
      (explodeRow r).map (fun e => e.dailyConsumption) = [0] ∧
      (explodeRow r).map (fun e => e.dailyCost) = [0]) ∧
    (billDaysOf r ≠ 0 →
      (explodeRow r).map (fun e => e.dailyConsumption)
        = [r.totalConsumption / ((billDaysOf r : ℤ) : ℚ)] ∧
      (explodeRow r).map (fun e => e.dailyCost)
        = [r.totalCost / ((billDaysOf r : ℤ) : ℚ)]) := by
  have hrange : dateRange r.billStartDate r.billEndDate = [] := by
    unfold dateRange
    rw [if_pos]
    omega
  have hex : explodedDates r = [none] := by
    unfold explodedDates
    rw [hrange]
    rfl
  have hexp : explodeRow r
      = [{ row := r
           dateRangeDay := none
           billDays := billDaysNA r
           dailyConsumption := dailyConsumptionOf r
           dailyCost := dailyCostOf r
           yearMonth := yearMonthOf none }] := by
    unfold explodeRow
    rw [hex]
    rfl
  refine ⟨?_, ?_, ?_⟩
  · rw [hexp]
    rfl
  · intro h0
    have hdc : dailyConsumptionOf r = 0 := by
      unfold dailyConsumptionOf billDaysNA
      rw [if_pos h0]
    have hcc : dailyCostOf r = 0 := by
      unfold dailyCostOf billDaysNA
      rw [if_pos h0]
    rw [hexp]
    simp [hdc, hcc]
  · intro h0
    have hdc : dailyConsumptionOf r = r.totalConsumption / ((billDaysOf r : ℤ) : ℚ) := by
      unfold dailyConsumptionOf billDaysNA
      rw [if_neg h0]
    have hcc : dailyCostOf r = r.totalCost / ((billDaysOf r : ℤ) : ℚ) := by
      unfold dailyCostOf billDaysNA
      rw [if_neg h0]
    rw [hexp]
    simp [hdc, hcc]

/-- Witness for the C4 theorem at the concrete reversed billing row. -/
theorem explodeRow_reversed_period_witness :
    daysFromCivil reversedRow.billEndDate < daysFromCivil reversedRow.billStartDate ∧
    ((explodeRow reversedRow).map (fun e => e.dateRangeDay) = [none] ∧
      (billDaysOf reversedRow = 0 →
        (explodeRow reversedRow).map (fun e => e.dailyConsumption) = [0] ∧
        (explodeRow reversedRow).map (fun e => e.dailyCost) = [0]) ∧
      (billDaysOf reversedRow ≠ 0 →
        (explodeRow reversedRow).map (fun e => e.dailyConsumption)
          = [reversedRow.totalConsumption / ((billDaysOf reversedRow : ℤ) : ℚ)] ∧
        (explodeRow reversedRow).map (fun e => e.dailyCost)
          = [reversedRow.totalCost / ((billDaysOf reversedRow : ℤ) : ℚ)])) :=
  ⟨by decide, explodeRow_reversed_period reversedRow (by decide)⟩

/-- Claim C5 counterexample: with two temperature records for 2023-01,
the merge emits two output rows for one exploded January row (one per
matching record), rather than a single row using the first match. -/
theorem merge_duplicate_month_counterexample :
    mergeTemp [e0] dupTemp
      = [{ ex := e0, tavg := some 5 }, { ex := e0, tavg := some 7 }] ∧
    mergeTemp [e0] dupTemp ≠ [{ ex := e0, tavg := some 5 }] := by
  with_unfolding_all decide

/-- Claim C5 as amended: the merge is a left join on the month key; an
exploded row with no matching temperature record is kept once with null
TAVG, and in general each exploded row contributes
max 1 (number of matching records) output rows, so duplicate month keys
in the temperature table duplicate rows instead of using only the first
match. -/
theorem mergeTemp_left_join (rows : List ExplodedRow) (temp : List TempRow)
    (e : ExplodedRow) (he : e ∈ rows)
    (hnone : temp.filter (fun t => decide (e.yearMonth = some t.yearMonth)) = []) :
    ({ ex := e, tavg := none } : MergedRow) ∈ mergeTemp rows temp ∧
    (mergeTemp rows temp).length
      = (rows.map (fun r =>
          max 1 (temp.filter (fun t => decide (r.yearMonth = some t.yearMonth))).length)).sum := by
  constructor
  · unfold mergeTemp
    rw [List.mem_flatMap]
    refine ⟨e, he, ?_⟩
    unfold mergeRowTemp
    rw [hnone]
    simp
  · unfold mergeTemp
    rw [List.length_flatMap]
    simp only [Function.comp_def, mergeRowTemp_length]

/-- Witness for the C5 theorem: the February exploded row has no match
in dupTemp and is kept with null TAVG; the January row is duplicated. -/
theorem mergeTemp_left_join_witness :
    eFeb ∈ [e0, eFeb] ∧
    dupTemp.filter (fun t => decide (eFeb.yearMonth = some t.yearMonth)) = [] ∧
    (({ ex := eFeb, tavg := none } : MergedRow) ∈ mergeTemp [e0, eFeb] dupTemp ∧
      (mergeTemp [e0, eFeb] dupTemp).length
        = ([e0, eFeb].map (fun r =>
            max 1 (dupTemp.filter (fun t => decide (r.yearMonth = some t.yearMonth))).length)).sum) :=
  ⟨by decide, by decide,
    mergeTemp_left_join [e0, eFeb] dupTemp eFeb (by decide) (by decide)⟩

/-- Claim C6: under Weather Normalized Energy Use with the TAVG column
present, a null or exactly-zero TAVG yields value 0 (never a fault and
never NaN, by the replace and fillna steps), and a nonzero TAVG yields
TotalConsumption divided by it. -/
theorem weather_normalized_zero_guard (e : ExplodedRow) (hasSQFT : Bool) (t : ℚ)
    (ht : t ≠ 0) :
    yValue NormMethod.weatherNormalized true hasSQFT { ex := e, tavg := none } = 0 ∧
    yValue NormMethod.weatherNormalized true hasSQFT { ex := e, tavg := some 0 } = 0 ∧
    yValue NormMethod.weatherNormalized true hasSQFT { ex := e, tavg := some t }
      = e.row.totalConsumption / t := by
  refine ⟨?_, ?_, ?_⟩ <;> simp [yValue, weatherNormalizedValue, ht]

/-- Witness for the C6 theorem at TAVG 5. -/
theorem weather_normalized_zero_guard_witness :
    ((5 : ℚ) ≠ 0) ∧
    (yValue NormMethod.weatherNormalized true false { ex := e0, tavg := none } = 0 ∧
      yValue NormMethod.weatherNormalized true false { ex := e0, tavg := some 0 } = 0 ∧
      yValue NormMethod.weatherNormalized true false { ex := e0, tavg := some 5 }
        = e0.row.totalConsumption / 5) :=
  ⟨by norm_num, weather_normalized_zero_guard e0 false 5 (by norm_num)⟩

/-- Claim C7 counterexample: with the TAVG column absent from the
temperature data and mode Weather Normalized, the program does not fall
back to the None behavior: the loader guard of src/app.py lines 35-39
halts with the missing-column error before the dispatch runs, and no
chart tables are produced at all. -/
theorem weather_missing_column_halts_counterexample :
    runApp true true true false true [scenarioRow] [] "Campus" "Elec" [] [] 2023 2023
      NormMethod.weatherNormalized
      = Except.error "The temperature dataset must contain Year-month and TAVG columns." ∧
    (runApp true true true false true [scenarioRow] [] "Campus" "Elec" [] [] 2023 2023
      NormMethod.weatherNormalized).toOption = none :=
  ⟨rfl, rfl⟩

/-- Claim C7 as amended: for EUI with BuildingSizeSQFT absent the
dispatch falls back to the None behavior (value column equals
TotalConsumption) without faulting, and the scatterplot section
surfaces a missing-column warning, which is absent exactly when both
BuildingSizeSQFT and TotalCost are present.  For Weather Normalized the
required TAVG column can never be absent at the dispatch: a temperature
dataset lacking TAVG makes the loader halt with a specific
missing-column error before any computation, and every run past the
loader has the TAVG column appended by the merge of line 122, so the
fallback branch for that mode never executes. -/
theorem normalization_fallback (m : MergedRow)
    (hasYM hasSQFT hasTAVG hasTotalCost : Bool)
    (billing : List BillingRow) (temp : List TempRow)
    (c k : String) (bs ms : List String) (lo hi : Int) (mode : NormMethod) :
    runApp true true hasYM false hasSQFT billing temp c k bs ms lo hi mode
      = Except.error "The temperature dataset must contain Year-month and TAVG columns." ∧
    yValue NormMethod.energyUseIntensity hasTAVG false m = m.ex.row.totalConsumption ∧
    yAxisColumn NormMethod.energyUseIntensity hasTAVG false = "TotalConsumption" ∧
    scatterplotWarnings false hasTotalCost
      = ["The dataset does not contain a BuildingSizeSQFT column."] ∧
    (scatterplotWarnings hasSQFT hasTotalCost = []
      ↔ (hasSQFT && hasTotalCost) = true) := by
  refine ⟨?_, ?_, ?_, ?_, ?_⟩
  · cases hasYM <;> rfl
  · cases hasTAVG <;> simp [yValue]
  · cases hasTAVG <;> simp [yAxisColumn]
  · rfl
  · cases hasSQFT <;> cases hasTotalCost <;> simp [scatterplotWarnings]

/-- Claim C8: when the filters leave zero rows, the render cycle halts
with the adjust-your-filters warning and produces no chart tables: none
of the four aggregation views run. -/
theorem empty_filter_halts (tbl : List BillingRow) (temp : List TempRow)
    (c k : String) (bs ms : List String) (lo hi : Int)
    (mode : NormMethod) (hT hS : Bool)
    (h : filteredData tbl c k bs ms lo hi = []) :
    renderCycle tbl temp c k bs ms lo hi mode hT hS
      = Except.error "No data available for the selected filters. Please adjust your filter options." := by
  unfold renderCycle
  rw [h]
  rfl

/-- Witness for the C8 theorem on an empty billing table. -/
theorem empty_filter_halts_witness :
    filteredData [] "Campus" "Elec" [] [] 2023 2023 = [] ∧
    renderCycle [] [] "Campus" "Elec" [] [] 2023 2023 NormMethod.noNorm true true
      = Except.error "No data available for the selected filters. Please adjust your filter options." :=
  ⟨rfl, empty_filter_halts [] [] "Campus" "Elec" [] [] 2023 2023
    NormMethod.noNorm true true rfl⟩

/-- Claim C9: every sidebar filter constraint is idempotent - applying
the same constraint twice yields the same table as applying it once
(campus and commodity equality filters, and the membership filters with
the inclusive empty default for buildings, meters and years). -/
theorem applyConstraint_idempotent (c : Constraint) (tbl : List BillingRow) :
    applyConstraint c (applyConstraint c tbl) = applyConstraint c tbl := by
  cases c with
  | campusEq s => exact filter_self_idem _ tbl
  | commodityEq s => exact filter_self_idem _ tbl
  | buildingIn sel =>
    by_cases hsel : sel.isEmpty = true
    · simp [applyConstraint, hsel]
    · simp [applyConstraint, hsel, filter_self_idem]
  | meterIn sel =>
    by_cases hsel : sel.isEmpty = true
    · simp [applyConstraint, hsel]
    · simp [applyConstraint, hsel, filter_self_idem]
  | yearIn sel =>
    by_cases hsel : sel.isEmpty = true
    · simp [applyConstraint, hsel]
    · simp [applyConstraint, hsel, filter_self_idem]

/-- Claim C10 counterexample: a row with TotalConsumption 0 and TAVG -5
gets value 0 / -5 = 0, which is not strictly negative, so the claim that
every row with strictly negative temperature gets a negative value fails
as universally stated. -/
theorem weather_normalized_negative_counterexample :
    yValue NormMethod.weatherNormalized true false { ex := eZero, tavg := some (-5) } = 0 ∧
    ¬ yValue NormMethod.weatherNormalized true false { ex := eZero, tavg := some (-5) } < 0 := by
  with_unfolding_all decide

/-- Claim C10 as amended: under Weather Normalized Energy Use only a
null or exactly-zero TAVG is replaced by 0; a strictly negative TAVG
divides TotalConsumption as-is, and when the consumption is strictly
positive the resulting value is strictly negative, not 0. -/
theorem weather_normalized_negative (e : ExplodedRow) (hasSQFT : Bool) (t : ℚ)
    (ht : t < 0) :
    yValue NormMethod.weatherNormalized true hasSQFT { ex := e, tavg := some t }
      = e.row.totalConsumption / t ∧
    (0 < e.row.totalConsumption →
      yValue NormMethod.weatherNormalized true hasSQFT { ex := e, tavg := some t } < 0) := by
  have htne : t ≠ 0 := ne_of_lt ht
  have hval : yValue NormMethod.weatherNormalized true hasSQFT { ex := e, tavg := some t }
      = e.row.totalConsumption / t := by
    simp [yValue, weatherNormalizedValue, htne]
  refine ⟨hval, fun hpos => ?_⟩
  rw [hval]
  exact div_neg_of_pos_of_neg hpos ht

/-- Witness for the C10 theorem at TAVG -5 with consumption 310. -/
theorem weather_normalized_negative_witness :
    ((-5 : ℚ) < 0) ∧
    (yValue NormMethod.weatherNormalized true false { ex := e0, tavg := some (-5) }
        = e0.row.totalConsumption / (-5) ∧
      (0 < e0.row.totalConsumption →
        yValue NormMethod.weatherNormalized true false { ex := e0, tavg := some (-5) } < 0)) :=
  ⟨by norm_num, weather_normalized_negative e0 false (-5) (by norm_num)⟩

end EnergyDashboard
